import Mathlib

/-!
Verification development for the zava-ticket-processing backend.

Shallow embedding of the backend services that the checked claims are
about, translated from the Python sources:

* `backend/app/services/memory_store.py` — document store with
  read-modify-write deep merge (`update_ticket`).
* `backend/app/services/extraction.py` — structured-field extraction
  cascade: tier dispatch, line-item amount reconciliation
  (`_fix_line_item_amounts`), columnar block reconstruction
  (`_extract_columnar_block`), and the multi-line line-item tokenizer
  (`_extract_line_items_multiline`), plus the stage-2/stage-3 auto-chain
  decision in `process_extraction`.
* `backend/app/services/ai_processing.py` and
  `backend/app/services/invoice_processing.py` — the remote stage caller
  (guard, retry-on-503, fallback policy) and the stage-C local simulator
  (`_simulate_invoice_processing`).

Modelling conventions: Python floats are modelled as rationals;
`datetime` parsing/comparison and random payment identifiers are
parameters of the embedding (environment facts); HTTP calls are
modelled by an outcome type, with the function under verification
receiving the outcome of the first request and of the (possible)
retry request as inputs.
-/

namespace Zava

/-! ### Document values and the in-memory store deep merge
Translated from `backend/app/services/memory_store.py`. -/

/-- A JSON-like document value, the payload type of the ticket store. -/
inductive DocVal where
  | str (s : String)
  | num (q : ℚ)
  | boolean (b : Bool)
  | null
  | arr (xs : List DocVal)
  | obj (fields : List (String × DocVal))

/-- A dictionary, as an insertion-ordered association list (Python `dict`
keys are unique; uniqueness of patch keys is the `patchWFB` predicate). -/
abbrev Fields := List (String × DocVal)

/-- Dictionary read: value of the first binding of the key, if any. -/
def lookupField : Fields → String → Option DocVal
  | [], _ => none
  | (k1, v1) :: rest, k => if k1 = k then some v1 else lookupField rest k

/-- Dictionary assignment `d[k] = v`: replace the binding in place when the
key is present, else append a new binding (Python insertion order). -/
def setField : Fields → String → DocVal → Fields
  | [], k, v => [(k, v)]
  | (k1, v1) :: rest, k, v =>
      if k1 = k then (k1, v) :: rest else (k1, v1) :: setField rest k v

/-- The `_deep_merge` helper of `memory_store.update_ticket`
(memory_store.py lines 89-95): for each key of the overlay, recurse when
both sides hold a dictionary at that key, otherwise assign the overlay
value. -/
def deepMergeFields : Fields → Fields → Fields
  | bs, [] => bs
  | bs, (k, DocVal.obj o) :: rest =>
      (match lookupField bs k with
        | some (DocVal.obj bo) =>
            deepMergeFields (setField bs k (DocVal.obj (deepMergeFields bo o))) rest
        | _ => deepMergeFields (setField bs k (DocVal.obj o)) rest)
  | bs, (k, DocVal.str s) :: rest => deepMergeFields (setField bs k (DocVal.str s)) rest
  | bs, (k, DocVal.num q) :: rest => deepMergeFields (setField bs k (DocVal.num q)) rest
  | bs, (k, DocVal.boolean b) :: rest => deepMergeFields (setField bs k (DocVal.boolean b)) rest
  | bs, (k, DocVal.null) :: rest => deepMergeFields (setField bs k DocVal.null) rest
  | bs, (k, DocVal.arr xs) :: rest => deepMergeFields (setField bs k (DocVal.arr xs)) rest
termination_by bs ov => sizeOf ov
decreasing_by
  all_goals simp_wf
  all_goals simp_arith

/-- `memory_store.update_ticket` on a found document (lines 82-101):
deep-merge the patch into the current document, then stamp the top-level
`updatedAt` field with the current time (`now` is the timestamp the code
reads from the clock). -/
def updateTicketDoc (now : String) (current updates : Fields) : Fields :=
  setField (deepMergeFields current updates) "updatedAt" (DocVal.str now)

/-- Read the value at a path of nested dictionary keys. -/
def getPath : DocVal → List String → Option DocVal
  | v, [] => some v
  | DocVal.obj fs, k :: ks =>
      (match lookupField fs k with
        | some v => getPath v ks
        | none => none)
  | _, _ :: _ => none

/-- The patch does not mention the (nonempty) path: at the first level the
key is absent from the patch, or the patch holds a dictionary there, the
base holds a dictionary there too, and the rest of the path is not
mentioned below. A path the patch reaches with a leaf (or reaches its
end at) counts as mentioned. -/
def patchOmits : Fields → Fields → List String → Bool
  | _, _, [] => false
  | bs, ov, k :: ks =>
      match lookupField ov k with
      | none => true
      | some (DocVal.obj o) =>
          (match lookupField bs k with
            | some (DocVal.obj bo) => patchOmits bo o ks
            | _ => false)
      | some _ => false

/-- Keys of one dictionary level are pairwise distinct. -/
def keysNodupB : Fields → Bool
  | [] => true
  | (k, _) :: rest => (lookupField rest k).isNone && keysNodupB rest

/-- Well-formedness of a patch as dictionary data: keys are unique at
every nesting level (guaranteed by Python `dict`). -/
def patchWFB : Fields → Bool
  | [] => true
  | (k, DocVal.obj o) :: rest =>
      (lookupField rest k).isNone && patchWFB o && patchWFB rest
  | (k, DocVal.str _) :: rest => (lookupField rest k).isNone && patchWFB rest
  | (k, DocVal.num _) :: rest => (lookupField rest k).isNone && patchWFB rest
  | (k, DocVal.boolean _) :: rest => (lookupField rest k).isNone && patchWFB rest
  | (k, DocVal.null) :: rest => (lookupField rest k).isNone && patchWFB rest
  | (k, DocVal.arr _) :: rest => (lookupField rest k).isNone && patchWFB rest
termination_by fs => sizeOf fs
decreasing_by
  all_goals simp_wf
  all_goals simp_arith

/-! ### Character and string helpers
Python string operations, re-implemented over character lists so that
they evaluate by kernel reduction. `Char.toUpper`, `Char.toLower`,
`Char.isUpper` and `Char.isDigit` are the ASCII operations, matching the
Python behaviour on the ASCII invoice text this system processes. -/

/-- Python `str.strip()` on a character list. -/
def trimList (cs : List Char) : List Char :=
  ((cs.dropWhile Char.isWhitespace).reverse.dropWhile Char.isWhitespace).reverse

/-- Python `str.upper()` on a character list (ASCII). -/
def upperList (cs : List Char) : List Char := cs.map Char.toUpper

/-- Python `str.lower()` on a character list (ASCII). -/
def lowerList (cs : List Char) : List Char := cs.map Char.toLower

/-- `line.strip().upper()`, the left-hand side of the columnar label
comparison in `_extract_columnar_block`. -/
def stripU (s : String) : List Char := upperList (trimList s.toList)

/-- `label.upper()`, the right-hand side of the columnar label
comparison (the label is uppercased but not stripped in the source). -/
def labelU (s : String) : List Char := upperList s.toList

/-- Python `str.strip()` as a string-to-string operation. -/
def trimS (s : String) : String := String.mk (trimList s.toList)

/-- Python substring membership `pat in s` on character lists. -/
def isInfixList (pat : List Char) : List Char → Bool
  | [] => pat.isEmpty
  | c :: rest => List.isPrefixOf pat (c :: rest) || isInfixList pat rest

/-- Python substring membership `pat in s` on strings. -/
def containsSub (s pat : String) : Bool := isInfixList pat.toList s.toList

/-- Python `s.startswith(pre)`. -/
def strStartsWith (s pre : String) : Bool := List.isPrefixOf pre.toList s.toList

/-- Python `text.split(sep)` for the single-character separator `\n`,
accumulator-based: splits on every newline, keeping empty pieces. -/
def splitLinesAux : List Char → List Char → List String
  | [], acc => [String.mk acc.reverse]
  | c :: rest, acc =>
      if c = '\n' then String.mk acc.reverse :: splitLinesAux rest []
      else splitLinesAux rest (c :: acc)

/-- Python `text.split("\n")`. -/
def splitTextLines (s : String) : List String := splitLinesAux s.toList []

/-! ### Structured-field extraction
Translated from `backend/app/services/extraction.py`. -/

/-- One invoice line item of the canonical structured-fields record
(amounts as rationals in place of Python floats). -/
structure LineItem where
  description : String
  productCode : String
  quantity : ℚ
  unitPrice : ℚ
  amount : ℚ
deriving DecidableEq

/-- Python `round(x, 2)` (two-decimal rounding; ties, which round to even
in Python, do not occur in the claims checked here). -/
def round2 (q : ℚ) : ℚ := ((round (q * 100) : ℤ) : ℚ) / 100

/-- The slice of the extraction-result dictionary the claims are about:
the line items and the error field. The scalar invoice fields
(vendor, dates, amounts, confidence scores, ...) are carried by the same
Python dictionary but no checked claim refers to them. -/
structure CuResult where
  lineItems : List LineItem
  error : Option String
deriving DecidableEq

/-- `_empty_cu_result` (extraction.py lines 516-542), restricted to the
modelled fields: no line items plus the explanatory error string. -/
def emptyCuResult (msg : String) : CuResult := { lineItems := [], error := some msg }

/-- The per-item body of `_fix_line_item_amounts` (extraction.py lines
200-208): when the extractor reported a zero (or missing) amount and both
quantity and unit price are non-zero (Python truthiness), recompute the
amount as `round(quantity * unitPrice, 2)`. -/
def fixLineItem (it : LineItem) : LineItem :=
  if it.amount = 0 then
    if it.quantity ≠ 0 ∧ it.unitPrice ≠ 0 then
      { it with amount := round2 (it.quantity * it.unitPrice) }
    else it
  else it

/-- `_fix_line_item_amounts` applied to a result: fix every line item. -/
def fixLineItemAmounts (r : CuResult) : CuResult :=
  { r with lineItems := r.lineItems.map fixLineItem }

/-- Character class `[A-Z0-9-]` of the product-code regexes. -/
def isCodeChar (c : Char) : Bool := c.isUpper || c.isDigit || c == '-'

/-- Python regex `^[A-Z]{2,5}-[A-Z0-9-]+$` (extraction.py line 805): an
initial run of 2 to 5 uppercase letters, a hyphen, then a nonempty
alphanumeric-or-hyphen tail. Since an uppercase letter is not a hyphen,
the quantifier necessarily consumes the whole initial uppercase run. -/
def matchesProductCodeCore (cs : List Char) : Bool :=
  let m := (cs.takeWhile Char.isUpper).length
  decide (2 ≤ m) && decide (m ≤ 5) &&
    (match cs.drop m with
      | '-' :: rest => !rest.isEmpty && rest.all isCodeChar
      | _ => false)

/-- Python regex `^[A-Z]{2,5}-[A-Z0-9-]+-$` (extraction.py line 810):
a product code wrapped across lines, ending in a hyphen. -/
def matchesWrappedCode (cs : List Char) : Bool :=
  let m := (cs.takeWhile Char.isUpper).length
  decide (2 ≤ m) && decide (m ≤ 5) &&
    (match cs.drop m with
      | '-' :: rest =>
          decide (2 ≤ rest.length) && rest.all isCodeChar && (rest.getLast? == some '-')
      | _ => false)

/-- Python regex `^[A-Z0-9]+$` (extraction.py line 815): the continuation
line of a hyphen-split product code. -/
def matchesCodeContinuation (cs : List Char) : Bool :=
  !cs.isEmpty && cs.all (fun c => c.isUpper || c.isDigit)

/-- Character class `[\d,]` of the currency regex. -/
def isDigitOrComma (c : Char) : Bool := c.isDigit || c == ','

/-- Python regex `^\$?([\d,]+\.\d{2})$` (extraction.py line 820): an
optional dollar sign, digits and commas, a dot, exactly two digits. -/
def matchesDollarAmount (cs0 : List Char) : Bool :=
  let cs := match cs0 with | '$' :: t => t | t => t
  match cs.reverse with
  | d2 :: d1 :: '.' :: ipRev =>
      d1.isDigit && d2.isDigit && !ipRev.isEmpty && ipRev.all isDigitOrComma
  | _ => false

/-- Numeric value of a digit string. -/
def digitsVal (cs : List Char) : Nat := cs.foldl (fun n c => n * 10 + (c.toNat - 48)) 0

/-- `float(match.group(1).replace(",", ""))` for a line matched by the
currency regex: drop the dollar sign and commas and read
`integerPart.fractionPart` as a rational. -/
def parseDollarAmount (cs0 : List Char) : ℚ :=
  let cs := match cs0 with | '$' :: t => t | t => t
  let cs := cs.filter (fun c => c != ',')
  let ip := cs.takeWhile (fun c => c != '.')
  let fp := cs.drop (ip.length + 1)
  mkRat (digitsVal ip * 100 + digitsVal fp) 100

/-- Python regex `^(\d+)$` (extraction.py line 829): a bare integer. -/
def matchesBareNat (cs : List Char) : Bool := !cs.isEmpty && cs.all Char.isDigit

/-- The mutable state of the line-item tokenizer loop
(extraction.py lines 798-800): accumulated description fragments, the
pending product code, the numeric buffer, and the finished items. -/
structure ItemAcc where
  descParts : List String
  code : List Char
  nums : List ℚ
  items : List LineItem

/-- The "flush a complete buffered item" step (extraction.py lines
837-850 and the final flush at 855-865): when a product code is pending
and at least three numbers are buffered, emit the item (quantity, unit
price, amount are the first three buffered numbers) and reset the
accumulator state. -/
def flushIfComplete (st : ItemAcc) : ItemAcc :=
  match st.code, st.nums with
  | [], _ => st
  | c, q :: u :: a :: _ =>
      { descParts := [], code := [], nums := [],
        items := st.items ++
          [{ description := String.intercalate " " st.descParts,
             productCode := String.mk c, quantity := q, unitPrice := u, amount := a }] }
  | _, _ => st

/-- One iteration of the tokenizer loop (extraction.py lines 802-852),
the six checks in source order: (1) complete product code not ending in
a hyphen, (2) wrapped partial code, (3) continuation of a pending
hyphen-split code, (4) currency token appended to the numeric buffer,
(5) bare integer appended only when a code is pending, (6) otherwise a
description fragment, flushing a complete buffered item first. -/
def processTableLine (st : ItemAcc) (line : String) : ItemAcc :=
  let cs := line.toList
  if matchesProductCodeCore cs && !(cs.getLast? == some '-') then
    { st with code := cs }
  else if matchesWrappedCode cs then
    { st with code := cs }
  else if !st.code.isEmpty && (st.code.getLast? == some '-') && matchesCodeContinuation cs then
    { st with code := st.code ++ cs }
  else if matchesDollarAmount cs then
    { st with nums := st.nums ++ [parseDollarAmount cs] }
  else if matchesBareNat cs && !st.code.isEmpty then
    { st with nums := st.nums ++ [(digitsVal cs : ℚ)] }
  else
    let st1 := flushIfComplete st
    { st1 with descParts := st1.descParts ++ [line] }

/-- The table-boundary scan of `_extract_line_items_multiline`
(extraction.py lines 779-787): remember `i + 1` for every line whose
stripped text is exactly `AMOUNT` or `Amount` (later occurrences
overwrite), and stop at the first subsequent line containing `Subtotal`
or `TOTAL`, returning (table start, table end). -/
def findItemTableGo : List String → Nat → Option Nat → Option (Nat × Nat)
  | [], _, _ => none
  | l :: rest, i, ts =>
      let stripped := trimS l
      let ts1 := if stripped = "AMOUNT" || stripped = "Amount" then some (i + 1) else ts
      match ts1 with
      | some s =>
          if containsSub stripped "Subtotal" || containsSub stripped "TOTAL" then some (s, i)
          else findItemTableGo rest (i + 1) (some s)
      | none => findItemTableGo rest (i + 1) none

/-- Locate the line-item table inside the text lines. -/
def findItemTable (lines : List String) : Option (Nat × Nat) := findItemTableGo lines 0 none

/-- `_extract_line_items_multiline` (extraction.py lines 761-867): locate
the table, strip and drop blank table lines, run the tokenizer, and
apply the final flush. -/
def extractLineItemsMultiline (lines : List String) : List LineItem :=
  match findItemTable lines with
  | none => []
  | some (ts, te) =>
      let tableLines :=
        (((lines.drop ts).take (te - ts)).map trimS).filter (fun l => l ≠ "")
      let final := tableLines.foldl processTableLine ⟨[], [], [], []⟩
      (flushIfComplete final).items

/-- `_extract_fallback` (extraction.py lines 549-657) restricted to the
modelled fields, taking the already-extracted full text (PDF parsing is
outside the embedding): an empty text yields the empty result with an
error, otherwise the line items come from the multi-line tokenizer over
`text.split("\n")`. No amount reconciliation is applied here. -/
def extractFallback (text : String) : CuResult :=
  if text = "" then emptyCuResult "Could not extract text from PDF."
  else { lineItems := extractLineItemsMultiline (splitTextLines text), error := none }

/-- `extract_with_content_understanding` (extraction.py lines 147-197):
tier dispatch on the extraction method and the configuration flag.
`pdfText` is `some` of the extracted text when PDF bytes were supplied
(Python truthiness of `pdf_bytes`); `cuSdkResult` stands for the value
`_extract_with_cu_sdk` returns from the cloud service. -/
def extractWithContentUnderstanding (extractionMethod : String) (cuConfigured : Bool)
    (pdfText : Option String) (cuSdkResult : CuResult) : CuResult :=
  if extractionMethod = "regex" then
    match pdfText with
    | some t => extractFallback t
    | none => emptyCuResult "Regex extraction requested but no PDF bytes."
  else if extractionMethod = "cu" then
    if cuConfigured then fixLineItemAmounts cuSdkResult
    else
      match pdfText with
      | some t => extractFallback t
      | none => emptyCuResult "Content Understanding not configured and no PDF bytes."
  else
    if cuConfigured then fixLineItemAmounts cuSdkResult
    else
      match pdfText with
      | some t => extractFallback t
      | none => emptyCuResult "Content Understanding not configured and no PDF bytes provided."

/-! ### Columnar block reconstruction
Translated from `_extract_columnar_block` (extraction.py lines 660-712). -/

/-- The label-location scan (extraction.py lines 683-689): walk the lines
with their index; on each line take the first declared label whose
uppercased text equals the stripped-and-uppercased line and that was not
located before, and record its line index. The accumulator keeps the
Python dictionary insertion order. -/
def scanLabelLines (labels : List String) : List String → Nat → List (String × Nat) →
    List (String × Nat)
  | [], _, acc => acc
  | line :: rest, i, acc =>
      match labels.find? (fun lab => (stripU line == labelU lab) && (acc.lookup lab).isNone) with
      | some lab => scanLabelLines labels rest (i + 1) (acc ++ [(lab, i)])
      | none => scanLabelLines labels rest (i + 1) acc

/-- Insert a (label, index) pair into a list sorted by index. -/
def insertByIdx (p : String × Nat) : List (String × Nat) → List (String × Nat)
  | [] => [p]
  | q :: rest => if p.2 < q.2 then p :: q :: rest else q :: insertByIdx p rest

/-- Python `sorted(label_indices.items(), key=lambda x: x[1])`
(insertion sort; the indices are pairwise distinct by construction). -/
def sortByIdx : List (String × Nat) → List (String × Nat)
  | [] => []
  | p :: rest => insertByIdx p (sortByIdx rest)

/-- `_extract_columnar_block` (extraction.py lines 660-712): locate the
labels, sort the found labels by document position, read one value line
per found label starting right after the last label line (in sorted
order), and map every unfound label to the empty string. -/
def extractColumnarBlock (lines labels : List String) : List (String × String) :=
  let labelIndices := scanLabelLines labels lines 0 []
  if labelIndices.isEmpty then labels.map (fun lab => (lab, ""))
  else
    let sortedPairs := sortByIdx labelIndices
    let lastLabelIdx := (sortedPairs.getLast?.map (fun p => p.2)).getD 0
    let results := sortedPairs.enum.map (fun q =>
      (q.2.1,
        match lines[lastLabelIdx + 1 + q.1]? with
        | some l => trimS l
        | none => ""))
    results ++ (labels.filter (fun lab => (results.lookup lab).isNone)).map (fun lab => (lab, ""))

/-! ### Remote stage caller
Translated from `trigger_ai_processing` (ai_processing.py lines 197-362)
and `trigger_invoice_processing` (invoice_processing.py lines 207-364);
the two functions share their structure and differ in the allowed-status
guard, the endpoint and the message texts. -/

/-- The outcome of one HTTP POST attempt to the stage function: a
response with a status code, or one of the exception classes the caller
distinguishes (`httpx.TimeoutException`, `httpx.ConnectError`, any other
exception). -/
inductive HttpAttempt where
  | status (code : Nat)
  | timeoutExc
  | connectExc
  | otherExc
deriving DecidableEq

/-- The configuration bits the trigger functions read: whether a stage
function URL is configured, whether the development-mode localhost
shortcut applies, and the `disable_simulation_fallback` flag. -/
structure StageConfig where
  urlConfigured : Bool
  devLocalhost : Bool
  disableSimulationFallback : Bool
deriving DecidableEq

/-- `RETRY_503_DELAY_SECONDS` (both trigger modules). -/
def retryDelaySeconds : Nat := 10

/-- How a stage trigger run ends. -/
inductive StageOutcome where
  | ticketNotFound
  | invalidStatus (st : String)
  | simulated
  | remoteOk (retried : Bool)
  | remoteRejected (code : Nat)
  | fallbackDisabledError
  | timeoutError
  | callFailedError
deriving DecidableEq

/-- A persisted side effect of a trigger run: the local simulator wrote
its stage result, or the trigger wrote a terminal error status to the
ticket. -/
inductive StageWrite where
  | simulatorResult
  | errorStatus
deriving DecidableEq

/-- The observable trace of one trigger run: outcome, the `success` flag
of the returned dictionary, the number of HTTP POSTs performed, the
sleeps taken (seconds), and the persisted writes in order. -/
structure StageCallTrace where
  outcome : StageOutcome
  success : Bool
  requests : Nat
  sleeps : List Nat
  writes : List StageWrite
deriving DecidableEq

/-- The strict-mode branch taken after a failed remote call, with the
request count and sleeps performed so far (ai_processing.py lines
304-323): persist an error status and fail when
`disable_simulation_fallback` is set, else run the local simulator. -/
def strictOrFallback (cfg : StageConfig) (reqs : Nat) (slept : List Nat) : StageCallTrace :=
  if cfg.disableSimulationFallback then
    { outcome := .fallbackDisabledError, success := false, requests := reqs, sleeps := slept,
      writes := [.errorStatus] }
  else
    { outcome := .simulated, success := true, requests := reqs, sleeps := slept,
      writes := [.simulatorResult] }

/-- The remote-call part of a stage trigger, after the guard has been
passed (ai_processing.py lines 237-362): simulator shortcut when no URL
is configured or in development mode against localhost; then one POST;
200 returns the remote result; 404 and 409 return a structured error
without retry, fallback or persisted write; 503 sleeps the fixed
cooldown and retries exactly once, a 200 retry succeeding; any other
status (as well as a failed retry) falls through to the strict-mode
check. A timeout of the first POST persists an error status and
returns failure; a connect failure falls back to the simulator; any
other exception persists an error status. Exceptions of the retry POST
are caught and fall through to the strict-mode check. -/
def runRemoteCall (cfg : StageConfig) (first retry : HttpAttempt) : StageCallTrace :=
  if !cfg.urlConfigured then
    { outcome := .simulated, success := true, requests := 0, sleeps := [],
      writes := [.simulatorResult] }
  else if cfg.devLocalhost then
    { outcome := .simulated, success := true, requests := 0, sleeps := [],
      writes := [.simulatorResult] }
  else
    match first with
    | .status c =>
        if c = 200 then
          { outcome := .remoteOk false, success := true, requests := 1, sleeps := [],
            writes := [] }
        else if c = 404 then
          { outcome := .remoteRejected 404, success := false, requests := 1, sleeps := [],
            writes := [] }
        else if c = 409 then
          { outcome := .remoteRejected 409, success := false, requests := 1, sleeps := [],
            writes := [] }
        else if c = 503 then
          match retry with
          | .status rc =>
              if rc = 200 then
                { outcome := .remoteOk true, success := true, requests := 2,
                  sleeps := [retryDelaySeconds], writes := [] }
              else strictOrFallback cfg 2 [retryDelaySeconds]
          | _ => strictOrFallback cfg 2 [retryDelaySeconds]
        else strictOrFallback cfg 1 []
    | .timeoutExc =>
        { outcome := .timeoutError, success := false, requests := 1, sleeps := [],
          writes := [.errorStatus] }
    | .connectExc =>
        { outcome := .simulated, success := true, requests := 1, sleeps := [],
          writes := [.simulatorResult] }
    | .otherExc =>
        { outcome := .callFailedError, success := false, requests := 1, sleeps := [],
          writes := [.errorStatus] }

/-- A stage trigger run: ticket lookup, then the allowed-status guard
(a guard violation returns a reported error without touching the
ticket), then the remote call. -/
def runStageTrigger (allowed : List String) (cfg : StageConfig) (ticketStatus : Option String)
    (first retry : HttpAttempt) : StageCallTrace :=
  match ticketStatus with
  | none =>
      { outcome := .ticketNotFound, success := false, requests := 0, sleeps := [], writes := [] }
  | some st =>
      if st ∈ allowed then runRemoteCall cfg first retry
      else
        { outcome := .invalidStatus st, success := false, requests := 0, sleeps := [],
          writes := [] }

/-- `trigger_ai_processing` (ai_processing.py): the stage-2 guard accepts
`extracted`, `ai_processing` and `error` (lines 227-234). -/
def trigger_ai_processing (cfg : StageConfig) (ticketStatus : Option String)
    (first retry : HttpAttempt) : StageCallTrace :=
  runStageTrigger ["extracted", "ai_processing", "error"] cfg ticketStatus first retry

/-- `trigger_invoice_processing` (invoice_processing.py): the stage-3
guard accepts `ai_processed`, `invoice_processing` and `error`
(lines 234-241). -/
def trigger_invoice_processing (cfg : StageConfig) (ticketStatus : Option String)
    (first retry : HttpAttempt) : StageCallTrace :=
  runStageTrigger ["ai_processed", "invoice_processing", "error"] cfg ticketStatus first retry

/-- The fallback-or-error behaviour the strict-mode flag selects after a
failed remote call (ai_processing.py lines 304-323): with
`disable_simulation_fallback` set, a terminal error status is persisted
and failure returned; otherwise the local simulator runs and its result
is returned as success. -/
def fallbackOrStrict (cfg : StageConfig) (t : StageCallTrace) : Prop :=
  if cfg.disableSimulationFallback then
    t.outcome = StageOutcome.fallbackDisabledError ∧ t.success = false ∧
      t.writes = [StageWrite.errorStatus]
  else
    t.outcome = StageOutcome.simulated ∧ t.success = true ∧
      t.writes = [StageWrite.simulatorResult]

/-! ### The stage-2 to stage-3 auto-chain decision
Translated from `process_extraction` (extraction.py lines 990-1063). -/

/-- `next_act = agent_out.get("next_action", "") or ai_result.get("nextAction", "")`
(extraction.py lines 993-996): the agent-output action when nonempty,
else the top-level action. -/
def nextActCombined (agentNext topNext : String) : String :=
  if agentNext ≠ "" then agentNext else topNext

/-- `should_invoice = "invoice_processing" in next_act.lower() if next_act else False`
(extraction.py line 999). -/
def shouldInvoice (nextAct : String) : Bool :=
  if nextAct = "" then false
  else isInfixList "invoice_processing".toList (lowerList nextAct.toList)

/-- Stage 3 is auto-invoked exactly when stage 2 reported success and
the combined next-action passes `shouldInvoice`
(extraction.py lines 991 and 1017). -/
def stage3AutoInvoked (aiSuccess : Bool) (agentNext topNext : String) : Bool :=
  aiSuccess && shouldInvoice (nextActCombined agentNext topNext)

/-- The document patch the skip branch persists (extraction.py lines
1057-1063): a `_autochain` debug marker only — in particular no
top-level `status` field. -/
def skippedStageCPatch (ts nextAct : String) : Fields :=
  [("_autochain", DocVal.obj
      [("stage", DocVal.str "skipped_stage_c"), ("ts", DocVal.str ts),
       ("next_action", DocVal.str nextAct)])]

/-! ### Stage-C local simulator
Translated from `_simulate_invoice_processing`
(invoice_processing.py lines 58-204). -/

/-- The five validation fields of the stage-C record. -/
structure SimValidations where
  invoiceNumberValid : Bool
  amountCorrect : Bool
  dueDateValid : Bool
  vendorApproved : Bool
  budgetAvailable : Bool
deriving DecidableEq

/-- The payment-submission record (its Python `status` field is named
`payStatus` here). -/
structure PaymentSubmissionRec where
  submitted : Bool
  paymentId : Option String
  submittedAt : Option String
  expectedPaymentDate : Option String
  paymentMethod : Option String
  payStatus : String
deriving DecidableEq

/-- The observable output of one simulator run: the returned `success`
flag, the persisted top-level ticket status, and the persisted
`invoiceProcessing` sub-record (its `status`, here `stageStatus`, plus
validations, payment submission and errors). -/
structure InvoiceSimOutput where
  success : Bool
  ticketStatus : String
  stageStatus : String
  validations : Option SimValidations
  paymentSubmission : Option PaymentSubmissionRec
  errors : List String
deriving DecidableEq

/-- The inputs of one simulator run: the ticket fields the simulator
reads, the vendor-approval reference table, and the environment facts the
`datetime`/`random` library calls produce (whether the due date parses,
whether it lies in the past, the clock timestamp, the generated payment
identifier, and the formatted now-plus-3-days / now-plus-1-day dates). -/
structure InvoiceSimInput where
  invoiceNumber : String
  vendorName : String
  totalAmount : ℚ
  dueDate : String
  nextAction : String
  vendorMappings : List (String × Bool)
  dueDateParses : Bool
  duePast : Bool
  nowIso : String
  paymentId : String
  datePlus3 : String
  datePlus1 : String

/-- Money formatting used inside error strings (stands for the Python
`${amount:,.2f}` formatting; the exact digits are not load-bearing for
any claim). -/
def moneyText (q : ℚ) : String := "$" ++ toString q

/-- Step 1 of `_simulate_invoice_processing` (invoice_processing.py
lines 107-142): the five validation fields. The vendor-approval lookup
defaults to approved for unknown vendors; the due date is valid when
empty or parseable; the invoice-number check is prefix-based or
length-based; the amount must be positive and below 500000; the budget
threshold is 100000. -/
def simValidationsOf (inp : InvoiceSimInput) : SimValidations :=
  { invoiceNumberValid := (inp.invoiceNumber != "") &&
      (strStartsWith inp.invoiceNumber "INV-" || strStartsWith inp.invoiceNumber "DC-" ||
       strStartsWith inp.invoiceNumber "FRT-" || decide (5 < inp.invoiceNumber.length))
    amountCorrect := decide (0 < inp.totalAmount) && decide (inp.totalAmount < 500000)
    dueDateValid := if inp.dueDate = "" then true else inp.dueDateParses
    vendorApproved := (inp.vendorMappings.lookup inp.vendorName).getD true
    budgetAvailable := decide (inp.totalAmount < 100000) }

/-- `all(validations.values())` (invoice_processing.py line 144). -/
def simAllValid (inp : InvoiceSimInput) : Bool :=
  (simValidationsOf inp).invoiceNumberValid && (simValidationsOf inp).amountCorrect &&
    (simValidationsOf inp).dueDateValid && (simValidationsOf inp).vendorApproved &&
    (simValidationsOf inp).budgetAvailable

/-- The error strings contributed by the failing validations, in source
order (invoice_processing.py lines 147-156). Quotes inside the Python
message texts are dropped in this embedding and the amount formatting is
abstracted by `moneyText`. -/
def simErrors (inp : InvoiceSimInput) : List String :=
  (if (simValidationsOf inp).invoiceNumberValid then []
    else ["Invoice number " ++ inp.invoiceNumber ++ " has invalid format."]) ++
  (if (simValidationsOf inp).amountCorrect then []
    else ["Amount " ++ moneyText inp.totalAmount ++ " is outside acceptable range."]) ++
  (if (simValidationsOf inp).dueDateValid then []
    else ["Due date " ++ inp.dueDate ++ " is not a valid date."]) ++
  (if (simValidationsOf inp).vendorApproved then []
    else ["Vendor " ++ inp.vendorName ++ " is not on the approved vendor list."]) ++
  (if (simValidationsOf inp).budgetAvailable then []
    else ["Amount " ++ moneyText inp.totalAmount ++ " exceeds department budget threshold."])

/-- `past_due` (invoice_processing.py lines 113-122): the due date is
nonempty, parseable, and lies before today. -/
def simPastDue (inp : InvoiceSimInput) : Bool :=
  if inp.dueDate = "" then false else (inp.dueDateParses && inp.duePast)

/-- Step 2 of `_simulate_invoice_processing` (invoice_processing.py
lines 158-179): a payment confirmation is synthesized exactly when all
validations pass (expedited expected date when past due); otherwise the
all-null non-submitted record. -/
def simPayment (inp : InvoiceSimInput) : PaymentSubmissionRec :=
  if simAllValid inp then
    { submitted := true, paymentId := some inp.paymentId, submittedAt := some inp.nowIso,
      expectedPaymentDate := some (if simPastDue inp then inp.datePlus1 else inp.datePlus3),
      paymentMethod := some "ACH Transfer", payStatus := "submitted" }
  else
    { submitted := false, paymentId := none, submittedAt := none,
      expectedPaymentDate := none, paymentMethod := none, payStatus := "not_submitted" }

/-- `_simulate_invoice_processing` (invoice_processing.py lines 58-204).
The skip guard (lines 86-105) takes the skip branch only when the
upstream next-action is nonempty and differs from `invoice_processing`
(Python truthiness of `next_action`); otherwise the validations are
computed, a payment is synthesized exactly when all five hold, and the
completed record is persisted with ticket status `invoice_processed`
and `success = True` returned. -/
def simulateInvoiceProcessing (inp : InvoiceSimInput) : InvoiceSimOutput :=
  if inp.nextAction ≠ "" ∧ inp.nextAction ≠ "invoice_processing" then
    { success := true, ticketStatus := "invoice_processed", stageStatus := "skipped",
      validations := none, paymentSubmission := none,
      errors :=
        ["Ticket nextAction is " ++ inp.nextAction ++ ", not invoice_processing. Skipped."] }
  else
    { success := true, ticketStatus := "invoice_processed", stageStatus := "completed",
      validations := some (simValidationsOf inp), paymentSubmission := some (simPayment inp),
      errors := simErrors inp }

/-- A stored ticket whose `updatedAt` differs from the update timestamp. -/
def c9Base : Fields := [("updatedAt", DocVal.str "t0"), ("status", DocVal.str "ingested")]

/-- A patch that does not mention `updatedAt`. -/
def c9Patch : Fields := [("status", DocVal.str "extracting")]

/-- A stored ticket with a nested extraction record. -/
def c9wBase : Fields :=
  [("status", DocVal.str "extracted"),
   ("extraction", DocVal.obj
      [("status", DocVal.str "completed"), ("processingTimeMs", DocVal.num 42)])]

/-- A stage patch that touches the extraction record but not its
`status` sub-field. -/
def c9wPatch : Fields :=
  [("extraction", DocVal.obj [("extractionMethod", DocVal.str "regex")])]

/-- Concrete stage-C simulator input with two failing validations (empty
invoice number, amount above both thresholds) and an approved vendor. -/
def c7Input : InvoiceSimInput :=
  { invoiceNumber := "", vendorName := "ABC Industrial Supplies", totalAmount := 600000,
    dueDate := "2026-02-21", nextAction := "invoice_processing",
    vendorMappings := [("ABC Industrial Supplies", true)], dueDateParses := true,
    duePast := false, nowIso := "2026-01-22T10:30:00Z", paymentId := "PAY-20260122-12345",
    datePlus3 := "2026-01-25", datePlus1 := "2026-01-23" }

/-- Concrete stage-C simulator input whose upstream next-action is the
empty string. -/
def c8Input : InvoiceSimInput :=
  { invoiceNumber := "INV-2026-78432", vendorName := "ABC Industrial Supplies",
    totalAmount := 50, dueDate := "", nextAction := "", vendorMappings := [],
    dueDateParses := false, duePast := false, nowIso := "2026-01-22T10:30:00Z",
    paymentId := "PAY-20260122-54321", datePlus3 := "2026-01-25",
    datePlus1 := "2026-01-23" }

/-- A document text whose line-item table carries a zero printed amount
with a positive quantity and unit price. -/
def c1CexText : String := "AMOUNT\nWidget\nAB-123\n2\n$5.00\n$0.00\nSubtotal"

/-- The line item the fallback tokenizer extracts from `c1CexText`. -/
def c1CexItem : LineItem :=
  { description := "Widget", productCode := "AB-123", quantity := 2, unitPrice := 5,
    amount := 0 }

/-- A cloud-tier line item with a zero reported amount. -/
def c1wItem : LineItem :=
  { description := "Industrial valve", productCode := "VLV-4200-IND", quantity := 2,
    unitPrice := 5, amount := 0 }

/-! ### Lemmas about the store merge -/

theorem lookupField_setField_self (fs : Fields) (k : String) (v : DocVal) :
    lookupField (setField fs k v) k = some v := by
  induction fs with
  | nil => simp [setField, lookupField]
  | cons p rest ih =>
    obtain ⟨ka, va⟩ := p
    by_cases h : ka = k
    · simp [setField, lookupField, h]
    · simp [setField, lookupField, h, ih]

theorem lookupField_setField_ne (fs : Fields) (k k1 : String) (v : DocVal) (h : k1 ≠ k) :
    lookupField (setField fs k v) k1 = lookupField fs k1 := by
  have h2 : ¬(k = k1) := fun hh => h hh.symm
  induction fs with
  | nil => simp [setField, lookupField, h2]
  | cons p rest ih =>
    obtain ⟨ka, va⟩ := p
    by_cases hka : ka = k
    · subst hka
      simp [setField, lookupField, h2]
    · simp [setField, lookupField, hka, ih]

theorem deepMergeFields_cons (bs : Fields) (ka : String) (va : DocVal) (rest : Fields) :
    ∃ w, deepMergeFields bs ((ka, va) :: rest) = deepMergeFields (setField bs ka w) rest := by
  cases va with
  | obj o =>
      cases hbo : lookupField bs ka with
      | none => exact ⟨DocVal.obj o, by rw [deepMergeFields, hbo]⟩
      | some v2 =>
          cases v2 with
          | obj bo => exact ⟨DocVal.obj (deepMergeFields bo o), by rw [deepMergeFields, hbo]⟩
          | str s => exact ⟨DocVal.obj o, by rw [deepMergeFields, hbo]⟩
          | num q => exact ⟨DocVal.obj o, by rw [deepMergeFields, hbo]⟩
          | boolean b => exact ⟨DocVal.obj o, by rw [deepMergeFields, hbo]⟩
          | null => exact ⟨DocVal.obj o, by rw [deepMergeFields, hbo]⟩
          | arr xs => exact ⟨DocVal.obj o, by rw [deepMergeFields, hbo]⟩
  | str s => exact ⟨DocVal.str s, by rw [deepMergeFields]⟩
  | num q => exact ⟨DocVal.num q, by rw [deepMergeFields]⟩
  | boolean b => exact ⟨DocVal.boolean b, by rw [deepMergeFields]⟩
  | null => exact ⟨DocVal.null, by rw [deepMergeFields]⟩
  | arr xs => exact ⟨DocVal.arr xs, by rw [deepMergeFields]⟩

theorem lookupField_deepMergeFields_absent (ov : Fields) (k : String) :
    ∀ bs, lookupField ov k = none → lookupField (deepMergeFields bs ov) k = lookupField bs k := by
  induction ov with
  | nil => intro bs _; rw [deepMergeFields]
  | cons p rest ih =>
    intro bs h
    obtain ⟨ka, va⟩ := p
    have hka : ¬(ka = k) := by
      intro hh
      simp [lookupField, hh] at h
    have hrest : lookupField rest k = none := by
      simpa [lookupField, hka] using h
    obtain ⟨w, hw⟩ := deepMergeFields_cons bs ka va rest
    rw [hw, ih _ hrest, lookupField_setField_ne _ _ _ _ (fun hh => hka hh.symm)]

theorem lookupField_deepMergeFields_obj (ov : Fields) :
    ∀ bs k o bo, keysNodupB ov = true → lookupField ov k = some (DocVal.obj o) →
      lookupField bs k = some (DocVal.obj bo) →
      lookupField (deepMergeFields bs ov) k = some (DocVal.obj (deepMergeFields bo o)) := by
  induction ov with
  | nil => intro bs k o bo _ h _; simp [lookupField] at h
  | cons p rest ih =>
    intro bs k o bo hnd hov hbs
    obtain ⟨ka, va⟩ := p
    have hnd1 : (lookupField rest ka).isNone = true ∧ keysNodupB rest = true := by
      simpa [keysNodupB] using hnd
    by_cases hk : ka = k
    · subst hk
      have hva : va = DocVal.obj o := by simpa [lookupField] using hov
      subst hva
      have hrest : lookupField rest ka = none := by
        simpa [Option.isNone_iff_eq_none] using hnd1.1
      rw [deepMergeFields, hbs, lookupField_deepMergeFields_absent rest ka _ hrest,
        lookupField_setField_self]
    · have hov2 : lookupField rest k = some (DocVal.obj o) := by
        simpa [lookupField, hk] using hov
      obtain ⟨w, hw⟩ := deepMergeFields_cons bs ka va rest
      rw [hw]
      refine ih _ _ _ _ hnd1.2 hov2 ?_
      rw [lookupField_setField_ne _ _ _ _ (fun hh => hk hh.symm)]
      exact hbs

theorem patchWFB_keysNodup (fs : Fields) (h : patchWFB fs = true) : keysNodupB fs = true := by
  induction fs with
  | nil => rfl
  | cons p rest ih =>
    obtain ⟨ka, va⟩ := p
    cases va with
    | obj o =>
        rw [patchWFB] at h
        simp only [Bool.and_eq_true] at h
        simp [keysNodupB, h.1.1, ih h.2]
    | str s =>
        rw [patchWFB] at h
        simp only [Bool.and_eq_true] at h
        simp [keysNodupB, h.1, ih h.2]
    | num q =>
        rw [patchWFB] at h
        simp only [Bool.and_eq_true] at h
        simp [keysNodupB, h.1, ih h.2]
    | boolean b =>
        rw [patchWFB] at h
        simp only [Bool.and_eq_true] at h
        simp [keysNodupB, h.1, ih h.2]
    | null =>
        rw [patchWFB] at h
        simp only [Bool.and_eq_true] at h
        simp [keysNodupB, h.1, ih h.2]
    | arr xs =>
        rw [patchWFB] at h
        simp only [Bool.and_eq_true] at h
        simp [keysNodupB, h.1, ih h.2]

theorem patchWFB_lookup_obj (fs : Fields) :
    ∀ k o, patchWFB fs = true → lookupField fs k = some (DocVal.obj o) →
      patchWFB o = true := by
  induction fs with
  | nil => intro k o _ h; simp [lookupField] at h
  | cons p rest ih =>
    intro k o hwf hlk
    obtain ⟨ka, va⟩ := p
    by_cases hk : ka = k
    · subst hk
      have hva : va = DocVal.obj o := by simpa [lookupField] using hlk
      subst hva
      rw [patchWFB] at hwf
      simp only [Bool.and_eq_true] at hwf
      exact hwf.1.2
    · have hlk2 : lookupField rest k = some (DocVal.obj o) := by
        simpa [lookupField, hk] using hlk
      cases va with
      | obj o2 =>
          rw [patchWFB] at hwf
          simp only [Bool.and_eq_true] at hwf
          exact ih _ _ hwf.2 hlk2
      | str s =>
          rw [patchWFB] at hwf
          simp only [Bool.and_eq_true] at hwf
          exact ih _ _ hwf.2 hlk2
      | num q =>
          rw [patchWFB] at hwf
          simp only [Bool.and_eq_true] at hwf
          exact ih _ _ hwf.2 hlk2
      | boolean b =>
          rw [patchWFB] at hwf
          simp only [Bool.and_eq_true] at hwf
          exact ih _ _ hwf.2 hlk2
      | null =>
          rw [patchWFB] at hwf
          simp only [Bool.and_eq_true] at hwf
          exact ih _ _ hwf.2 hlk2
      | arr xs =>
          rw [patchWFB] at hwf
          simp only [Bool.and_eq_true] at hwf
          exact ih _ _ hwf.2 hlk2

theorem getPath_deepMergeFields (p : List String) :
    ∀ bs ov, patchWFB ov = true → patchOmits bs ov p = true →
      getPath (DocVal.obj (deepMergeFields bs ov)) p = getPath (DocVal.obj bs) p := by
  induction p with
  | nil =>
      intro bs ov _ hom
      simp [patchOmits] at hom
  | cons k ks ih =>
    intro bs ov hwf hom
    cases hov : lookupField ov k with
    | none =>
        have hfr := lookupField_deepMergeFields_absent ov k bs hov
        simp [getPath, hfr]
    | some v =>
        cases v with
        | obj o =>
            cases hbs : lookupField bs k with
            | none => simp [patchOmits, hov, hbs] at hom
            | some v2 =>
                cases v2 with
                | obj bo =>
                    have hom2 : patchOmits bo o ks = true := by
                      simpa [patchOmits, hov, hbs] using hom
                    have hnd := patchWFB_keysNodup ov hwf
                    have hwo := patchWFB_lookup_obj ov k o hwf hov
                    have hmerged := lookupField_deepMergeFields_obj ov bs k o bo hnd hov hbs
                    simp [getPath, hmerged, hbs, ih bo o hwo hom2]
                | str s => simp [patchOmits, hov, hbs] at hom
                | num q => simp [patchOmits, hov, hbs] at hom
                | boolean b => simp [patchOmits, hov, hbs] at hom
                | null => simp [patchOmits, hov, hbs] at hom
                | arr xs => simp [patchOmits, hov, hbs] at hom
        | str s => simp [patchOmits, hov] at hom
        | num q => simp [patchOmits, hov] at hom
        | boolean b => simp [patchOmits, hov] at hom
        | null => simp [patchOmits, hov] at hom
        | arr xs => simp [patchOmits, hov] at hom

/-! ### Claim C9 — deep-merge frame property of the store update -/

/-- C9 counterexample: the claim says every field the patch does not
mention retains its prior value; but `update_ticket` refreshes the
top-level `updatedAt` field on every update, so at this concrete input
the unmentioned `updatedAt` changes from `t0` to the clock value `t1`. -/
theorem C9_counterexample :
    patchOmits c9Base c9Patch ["updatedAt"] = true
    ∧ lookupField c9Base "updatedAt" = some (DocVal.str "t0")
    ∧ lookupField (updateTicketDoc "t1" c9Base c9Patch) "updatedAt" = some (DocVal.str "t1")
    ∧ some (DocVal.str "t1") ≠ some (DocVal.str "t0") := by
  refine ⟨by decide, rfl, ?_, by simp⟩
  simp [updateTicketDoc, c9Base, c9Patch, deepMergeFields, setField, lookupField]

/-- C9 amended: the store update is a read-modify-write deep merge —
nested dictionaries merge key-by-key, a new leaf value replaces the old
— and every field (at any nesting depth where both sides are
dictionaries) that the patch does not mention retains its prior value,
with the single exception of the top-level `updatedAt` bookkeeping
timestamp, which is refreshed on every update. -/
theorem C9_amended_thm (now : String) (base patch : Fields) (k : String) (ks : List String)
    (hk : k ≠ "updatedAt") (hwf : patchWFB patch = true)
    (hom : patchOmits base patch (k :: ks) = true) :
    getPath (DocVal.obj (updateTicketDoc now base patch)) (k :: ks)
      = getPath (DocVal.obj base) (k :: ks) := by
  have hset := lookupField_setField_ne (deepMergeFields base patch) "updatedAt" k
    (DocVal.str now) hk
  have hmain := getPath_deepMergeFields (k :: ks) base patch hwf hom
  calc getPath (DocVal.obj (updateTicketDoc now base patch)) (k :: ks)
      = getPath (DocVal.obj (deepMergeFields base patch)) (k :: ks) := by
        simp [updateTicketDoc, getPath, hset]
    _ = getPath (DocVal.obj base) (k :: ks) := hmain

/-- C9 witness: the amended frame property applied at a concrete update
that merges into the nested `extraction` record; its untouched nested
`status` field keeps its prior value. -/
theorem C9_witness :
    patchWFB c9wPatch = true
    ∧ patchOmits c9wBase c9wPatch ["extraction", "status"] = true
    ∧ getPath (DocVal.obj (updateTicketDoc "t2" c9wBase c9wPatch)) ["extraction", "status"]
        = getPath (DocVal.obj c9wBase) ["extraction", "status"] :=
  ⟨by simp [c9wPatch, patchWFB, lookupField], by decide,
    C9_amended_thm "t2" c9wBase c9wPatch "extraction" ["status"] (by decide)
      (by simp [c9wPatch, patchWFB, lookupField]) (by decide)⟩

/-! ### Claim C5 — the stage-2 to stage-3 auto-chain decision -/

/-- C5: after a successful stage-2 completion, stage 3 is auto-invoked
if and only if the combined next-action string case-insensitively
contains the token `invoice_processing`; when it is not invoked, the
patch the skip branch persists leaves the ticket `status` field
unchanged (no error is recorded). -/
theorem C5_thm (aiSuccess : Bool) (agentNext topNext : String) (h : aiSuccess = true) :
    (stage3AutoInvoked aiSuccess agentNext topNext = true
      ↔ isInfixList "invoice_processing".toList
          (lowerList (nextActCombined agentNext topNext).toList) = true)
    ∧ ∀ (ts : String) (base : Fields),
        lookupField
            (deepMergeFields base (skippedStageCPatch ts (nextActCombined agentNext topNext)))
            "status"
          = lookupField base "status" := by
  constructor
  · subst h
    by_cases hempty : nextActCombined agentNext topNext = ""
    · simp [stage3AutoInvoked, shouldInvoice, hempty, lowerList, isInfixList]
    · simp [stage3AutoInvoked, shouldInvoice, hempty]
  · intro ts base
    apply lookupField_deepMergeFields_absent
    simp [skippedStageCPatch, lookupField]

/-- C5 witness: the decision evaluated through the theorem at two
concrete next-actions — a mixed-case action containing the token does
invoke stage 3, and the skip patch written for a `manual_review` action
does not touch the ticket status. -/
theorem C5_witness :
    stage3AutoInvoked true "Invoice_Processing recommended" "" = true
    ∧ lookupField
        (deepMergeFields [("status", DocVal.str "ai_processed")]
          (skippedStageCPatch "2026-01-01T00:00:00Z" (nextActCombined "manual_review" "")))
        "status"
      = some (DocVal.str "ai_processed") := by
  constructor
  · exact ((C5_thm true "Invoice_Processing recommended" "" rfl).1).mpr (by decide)
  · rw [(C5_thm true "manual_review" "" rfl).2 "2026-01-01T00:00:00Z"
      [("status", DocVal.str "ai_processed")]]
    simp [lookupField]

/-! ### Lemmas about the remote stage caller -/

theorem runRemoteCall_not_invalid (cfg : StageConfig) (first retry : HttpAttempt) (s : String) :
    (runRemoteCall cfg first retry).outcome ≠ StageOutcome.invalidStatus s := by
  cases first <;> cases retry <;>
    simp only [runRemoteCall, strictOrFallback] <;> split_ifs <;> simp

theorem runRemoteCall_requests_le_two (cfg : StageConfig) (first retry : HttpAttempt) :
    (runRemoteCall cfg first retry).requests ≤ 2 := by
  cases first <;> cases retry <;>
    simp only [runRemoteCall, strictOrFallback] <;> split_ifs <;> simp

/-! ### Claim C6 — stage-transition guards -/

/-- C6: a stage-2 trigger is accepted (not rejected by the status guard)
exactly when the ticket status lies in {extracted, ai_processing,
error}, a stage-3 trigger exactly when it lies in {ai_processed,
invoice_processing, error}; a guard violation returns a reported
failure and performs no request, no sleep and no persisted write. -/
theorem C6_thm (cfg : StageConfig) (first retry : HttpAttempt) (st : String) :
    ((trigger_ai_processing cfg (some st) first retry).outcome = StageOutcome.invalidStatus st
      ↔ st ∉ (["extracted", "ai_processing", "error"] : List String))
    ∧ (st ∉ (["extracted", "ai_processing", "error"] : List String) →
        trigger_ai_processing cfg (some st) first retry
          = { outcome := StageOutcome.invalidStatus st, success := false, requests := 0,
              sleeps := [], writes := [] })
    ∧ ((trigger_invoice_processing cfg (some st) first retry).outcome
          = StageOutcome.invalidStatus st
      ↔ st ∉ (["ai_processed", "invoice_processing", "error"] : List String))
    ∧ (st ∉ (["ai_processed", "invoice_processing", "error"] : List String) →
        trigger_invoice_processing cfg (some st) first retry
          = { outcome := StageOutcome.invalidStatus st, success := false, requests := 0,
              sleeps := [], writes := [] }) := by
  refine ⟨?_, ?_, ?_, ?_⟩
  · constructor
    · intro h hmem
      rw [trigger_ai_processing, runStageTrigger, if_pos hmem] at h
      exact runRemoteCall_not_invalid cfg first retry st h
    · intro hmem
      rw [trigger_ai_processing, runStageTrigger, if_neg hmem]
  · intro hmem
    rw [trigger_ai_processing, runStageTrigger, if_neg hmem]
  · constructor
    · intro h hmem
      rw [trigger_invoice_processing, runStageTrigger, if_pos hmem] at h
      exact runRemoteCall_not_invalid cfg first retry st h
    · intro hmem
      rw [trigger_invoice_processing, runStageTrigger, if_neg hmem]
  · intro hmem
    rw [trigger_invoice_processing, runStageTrigger, if_neg hmem]

/-- C6 witness: a ticket still in status `ingested` is rejected by the
stage-2 guard and a ticket in status `extracted` by the stage-3 guard,
both without any request or persisted write. -/
theorem C6_witness :
    trigger_ai_processing ⟨true, false, false⟩ (some "ingested")
        (HttpAttempt.status 200) (HttpAttempt.status 200)
      = { outcome := StageOutcome.invalidStatus "ingested", success := false, requests := 0,
          sleeps := [], writes := [] }
    ∧ trigger_invoice_processing ⟨true, false, false⟩ (some "extracted")
        (HttpAttempt.status 200) (HttpAttempt.status 200)
      = { outcome := StageOutcome.invalidStatus "extracted", success := false, requests := 0,
          sleeps := [], writes := [] } :=
  ⟨(C6_thm ⟨true, false, false⟩ (HttpAttempt.status 200) (HttpAttempt.status 200)
      "ingested").2.1 (by decide),
   (C6_thm ⟨true, false, false⟩ (HttpAttempt.status 200) (HttpAttempt.status 200)
      "extracted").2.2.2 (by decide)⟩

/-! ### Claim C3 — the 503 retry policy -/

/-- C3 counterexample: the claim says any non-2xx status other than 503
leads to fallback-to-simulator (strict mode off) or a persisted error
(strict mode on); but a 404 response returns a structured error with no
fallback, no retry and no persisted write, here with strict mode off. -/
theorem C3_counterexample :
    runStageTrigger ["extracted", "ai_processing", "error"] ⟨true, false, false⟩
        (some "extracted") (HttpAttempt.status 404) (HttpAttempt.status 200)
      = { outcome := StageOutcome.remoteRejected 404, success := false, requests := 1,
          sleeps := [], writes := [] }
    ∧ ¬ fallbackOrStrict ⟨true, false, false⟩
        (runStageTrigger ["extracted", "ai_processing", "error"] ⟨true, false, false⟩
          (some "extracted") (HttpAttempt.status 404) (HttpAttempt.status 200)) := by
  constructor
  · rfl
  · intro h
    rw [show (runStageTrigger ["extracted", "ai_processing", "error"] ⟨true, false, false⟩
        (some "extracted") (HttpAttempt.status 404) (HttpAttempt.status 200))
      = { outcome := StageOutcome.remoteRejected 404, success := false, requests := 1,
          sleeps := [], writes := [] } from rfl] at h
    simp [fallbackOrStrict] at h

set_option maxHeartbeats 1600000 in
/-- C3 amended: for every stage trigger that reaches the network, at
most two requests are ever made; a 503 first response triggers exactly
one retry after the fixed cooldown — a 200 retry is returned as
success, any failed retry takes the strict-or-fallback branch — and a
first response with any other status except 200, 404 and 409 takes the
strict-or-fallback branch after a single request (404 and 409 instead
return a structured non-retryable error with neither fallback nor
persisted write). -/
theorem C3_amended_thm (allowed : List String) (cfg : StageConfig) (st : String)
    (first retry : HttpAttempt) (hst : st ∈ allowed)
    (hurl : cfg.urlConfigured = true) (hdev : cfg.devLocalhost = false) :
    (runStageTrigger allowed cfg (some st) first retry).requests ≤ 2
    ∧ (first = HttpAttempt.status 503 →
        (runStageTrigger allowed cfg (some st) first retry).requests = 2
        ∧ (runStageTrigger allowed cfg (some st) first retry).sleeps = [retryDelaySeconds]
        ∧ (retry = HttpAttempt.status 200 →
            runStageTrigger allowed cfg (some st) first retry
              = { outcome := StageOutcome.remoteOk true, success := true, requests := 2,
                  sleeps := [retryDelaySeconds], writes := [] })
        ∧ (retry ≠ HttpAttempt.status 200 →
            fallbackOrStrict cfg (runStageTrigger allowed cfg (some st) first retry)))
    ∧ (∀ c : Nat, first = HttpAttempt.status c → c ≠ 200 → c ≠ 404 → c ≠ 409 → c ≠ 503 →
        (runStageTrigger allowed cfg (some st) first retry).requests = 1
        ∧ fallbackOrStrict cfg (runStageTrigger allowed cfg (some st) first retry))
    ∧ (first = HttpAttempt.status 404 ∨ first = HttpAttempt.status 409 →
        (runStageTrigger allowed cfg (some st) first retry).writes = []
        ∧ (runStageTrigger allowed cfg (some st) first retry).requests = 1) := by
  rw [runStageTrigger, if_pos hst]
  obtain ⟨u, d, strict⟩ := cfg
  simp only at hurl hdev
  subst hurl hdev
  refine ⟨runRemoteCall_requests_le_two _ _ _, ?_, ?_, ?_⟩
  · rintro rfl
    refine ⟨?_, ?_, ?_, ?_⟩
    · cases retry <;> simp only [runRemoteCall, strictOrFallback] <;> split_ifs <;> simp_all
    · cases retry <;> simp only [runRemoteCall, strictOrFallback] <;> split_ifs <;> simp_all
    · rintro rfl
      rfl
    · intro hr
      cases retry with
      | status rc =>
          have hrc : ¬(rc = 200) := fun hh => hr (by rw [hh])
          simp only [runRemoteCall, strictOrFallback, fallbackOrStrict]
          split_ifs <;> simp_all
      | timeoutExc =>
          simp only [runRemoteCall, strictOrFallback, fallbackOrStrict]
          split_ifs <;> simp_all
      | connectExc =>
          simp only [runRemoteCall, strictOrFallback, fallbackOrStrict]
          split_ifs <;> simp_all
      | otherExc =>
          simp only [runRemoteCall, strictOrFallback, fallbackOrStrict]
          split_ifs <;> simp_all
  · rintro c rfl h200 h404 h409 h503
    simp only [runRemoteCall, strictOrFallback, fallbackOrStrict]
    split_ifs <;> simp_all
  · rintro (rfl | rfl) <;> simp [runRemoteCall]

/-- C3 witness: the amended policy evaluated through the theorem at a
503 first response whose retry succeeds with 200 — two requests, one
cooldown sleep, remote success. -/
theorem C3_witness :
    runStageTrigger ["extracted", "ai_processing", "error"] ⟨true, false, false⟩
        (some "extracted") (HttpAttempt.status 503) (HttpAttempt.status 200)
      = { outcome := StageOutcome.remoteOk true, success := true, requests := 2,
          sleeps := [retryDelaySeconds], writes := [] } :=
  (((C3_amended_thm ["extracted", "ai_processing", "error"] ⟨true, false, false⟩
      "extracted" (HttpAttempt.status 503) (HttpAttempt.status 200) (by decide) rfl
      rfl).2.1 rfl).2.2.1) rfl

/-! ### Claim C4 — timeout versus connect failure -/

/-- C4 counterexample: the claim says a remote-call timeout always
persists a terminal error status and never falls back; but when the
first response is 503 and the retry times out, the retry exception is
caught and, with strict mode off, the caller falls back to the local
simulator with no error status persisted. -/
theorem C4_counterexample :
    runStageTrigger ["ai_processed", "invoice_processing", "error"] ⟨true, false, false⟩
        (some "ai_processed") (HttpAttempt.status 503) HttpAttempt.timeoutExc
      = { outcome := StageOutcome.simulated, success := true, requests := 2,
          sleeps := [retryDelaySeconds], writes := [StageWrite.simulatorResult] }
    ∧ StageWrite.errorStatus ∉
        (runStageTrigger ["ai_processed", "invoice_processing", "error"] ⟨true, false, false⟩
          (some "ai_processed") (HttpAttempt.status 503) HttpAttempt.timeoutExc).writes := by
  refine ⟨rfl, ?_⟩
  rw [show (runStageTrigger ["ai_processed", "invoice_processing", "error"] ⟨true, false, false⟩
      (some "ai_processed") (HttpAttempt.status 503) HttpAttempt.timeoutExc).writes
    = [StageWrite.simulatorResult] from rfl]
  simp

/-- C4 amended: a timeout of the initial remote call persists a
terminal error status and returns failure with no fallback, even with
strict mode off; a connect failure of the initial call falls back to
the local simulator without persisting an error status; a timeout
during the 503 retry is caught and treated like any failed retry
(strict-or-fallback). -/
theorem C4_amended_thm (allowed : List String) (cfg : StageConfig) (st : String)
    (first retry : HttpAttempt) (hst : st ∈ allowed)
    (hurl : cfg.urlConfigured = true) (hdev : cfg.devLocalhost = false) :
    (first = HttpAttempt.timeoutExc →
        runStageTrigger allowed cfg (some st) first retry
          = { outcome := StageOutcome.timeoutError, success := false, requests := 1,
              sleeps := [], writes := [StageWrite.errorStatus] })
    ∧ (first = HttpAttempt.connectExc →
        runStageTrigger allowed cfg (some st) first retry
          = { outcome := StageOutcome.simulated, success := true, requests := 1,
              sleeps := [], writes := [StageWrite.simulatorResult] })
    ∧ (first = HttpAttempt.status 503 → retry = HttpAttempt.timeoutExc →
        fallbackOrStrict cfg (runStageTrigger allowed cfg (some st) first retry)) := by
  rw [runStageTrigger, if_pos hst]
  obtain ⟨u, d, strict⟩ := cfg
  simp only at hurl hdev
  subst hurl hdev
  refine ⟨?_, ?_, ?_⟩
  · rintro rfl
    rfl
  · rintro rfl
    rfl
  · rintro rfl rfl
    simp only [runRemoteCall, strictOrFallback, fallbackOrStrict]
    split_ifs <;> simp_all

/-- C4 witness: the amended behaviour evaluated through the theorem —
a timeout persists the error status and fails, a connect failure
simulates. -/
theorem C4_witness :
    runStageTrigger ["extracted", "ai_processing", "error"] ⟨true, false, false⟩
        (some "extracted") HttpAttempt.timeoutExc (HttpAttempt.status 200)
      = { outcome := StageOutcome.timeoutError, success := false, requests := 1,
          sleeps := [], writes := [StageWrite.errorStatus] }
    ∧ runStageTrigger ["extracted", "ai_processing", "error"] ⟨true, false, false⟩
        (some "extracted") HttpAttempt.connectExc (HttpAttempt.status 200)
      = { outcome := StageOutcome.simulated, success := true, requests := 1,
          sleeps := [], writes := [StageWrite.simulatorResult] } :=
  ⟨(C4_amended_thm ["extracted", "ai_processing", "error"] ⟨true, false, false⟩
      "extracted" HttpAttempt.timeoutExc (HttpAttempt.status 200) (by decide) rfl rfl).1 rfl,
   (C4_amended_thm ["extracted", "ai_processing", "error"] ⟨true, false, false⟩
      "extracted" HttpAttempt.connectExc (HttpAttempt.status 200) (by decide) rfl rfl).2.1 rfl⟩

/-! ### Claim C7 — payment only when all validations pass -/

/-- C7: when the stage-C simulator reaches its validation step, a
payment is submitted exactly when all five validation fields hold;
when any fails, the payment record is the non-submitted one with null
identifier and dates, each failing validation contributes its error
string, and the error count equals the number of failing validations. -/
theorem C7_thm (inp : InvoiceSimInput)
    (h : inp.nextAction = "" ∨ inp.nextAction = "invoice_processing") :
    ∃ v ps, (simulateInvoiceProcessing inp).validations = some v
      ∧ (simulateInvoiceProcessing inp).paymentSubmission = some ps
      ∧ (ps.submitted = true ↔
          (v.invoiceNumberValid && v.amountCorrect && v.dueDateValid && v.vendorApproved &&
            v.budgetAvailable) = true)
      ∧ ((v.invoiceNumberValid && v.amountCorrect && v.dueDateValid && v.vendorApproved &&
            v.budgetAvailable) = false →
          ps.submitted = false ∧ ps.paymentId = none ∧ ps.submittedAt = none ∧
            ps.expectedPaymentDate = none)
      ∧ (v.invoiceNumberValid = false →
          ("Invoice number " ++ inp.invoiceNumber ++ " has invalid format.")
            ∈ (simulateInvoiceProcessing inp).errors)
      ∧ (v.amountCorrect = false →
          ("Amount " ++ moneyText inp.totalAmount ++ " is outside acceptable range.")
            ∈ (simulateInvoiceProcessing inp).errors)
      ∧ (v.dueDateValid = false →
          ("Due date " ++ inp.dueDate ++ " is not a valid date.")
            ∈ (simulateInvoiceProcessing inp).errors)
      ∧ (v.vendorApproved = false →
          ("Vendor " ++ inp.vendorName ++ " is not on the approved vendor list.")
            ∈ (simulateInvoiceProcessing inp).errors)
      ∧ (v.budgetAvailable = false →
          ("Amount " ++ moneyText inp.totalAmount ++ " exceeds department budget threshold.")
            ∈ (simulateInvoiceProcessing inp).errors)
      ∧ (simulateInvoiceProcessing inp).errors.length =
          (cond v.invoiceNumberValid 0 1) + (cond v.amountCorrect 0 1) +
            (cond v.dueDateValid 0 1) + (cond v.vendorApproved 0 1) +
            (cond v.budgetAvailable 0 1) := by
  have hskip : ¬(inp.nextAction ≠ "" ∧ inp.nextAction ≠ "invoice_processing") := by
    rcases h with h | h <;> simp [h]
  refine ⟨simValidationsOf inp, simPayment inp, ?_, ?_, ?_, ?_, ?_, ?_, ?_, ?_, ?_, ?_⟩
  · rw [simulateInvoiceProcessing, if_neg hskip]
  · rw [simulateInvoiceProcessing, if_neg hskip]
  · rw [simPayment]
    constructor
    · intro hs
      by_cases hall : simAllValid inp = true
      · simpa [simAllValid] using hall
      · rw [if_neg hall] at hs
        simp at hs
    · intro hall
      have hall2 : simAllValid inp = true := by simpa [simAllValid] using hall
      rw [if_pos hall2]
  · intro hall
    have hall2 : simAllValid inp = false := by simpa [simAllValid] using hall
    rw [simPayment, hall2]
    simp
  · intro hf
    rw [simulateInvoiceProcessing, if_neg hskip]
    simp [simErrors, hf]
  · intro hf
    rw [simulateInvoiceProcessing, if_neg hskip]
    simp [simErrors, hf]
  · intro hf
    rw [simulateInvoiceProcessing, if_neg hskip]
    simp [simErrors, hf]
  · intro hf
    rw [simulateInvoiceProcessing, if_neg hskip]
    simp [simErrors, hf]
  · intro hf
    rw [simulateInvoiceProcessing, if_neg hskip]
    simp [simErrors, hf]
  · rw [simulateInvoiceProcessing, if_neg hskip]
    simp only [simErrors]
    cases h1 : (simValidationsOf inp).invoiceNumberValid <;>
      cases h2 : (simValidationsOf inp).amountCorrect <;>
        cases h3 : (simValidationsOf inp).dueDateValid <;>
          cases h4 : (simValidationsOf inp).vendorApproved <;>
            cases h5 : (simValidationsOf inp).budgetAvailable <;> simp

/-- C7 witness: the theorem applied at a concrete input. -/
theorem C7_witness :
    ∃ v ps, (simulateInvoiceProcessing c7Input).validations = some v
      ∧ (simulateInvoiceProcessing c7Input).paymentSubmission = some ps
      ∧ (ps.submitted = true ↔
          (v.invoiceNumberValid && v.amountCorrect && v.dueDateValid && v.vendorApproved &&
            v.budgetAvailable) = true)
      ∧ ((v.invoiceNumberValid && v.amountCorrect && v.dueDateValid && v.vendorApproved &&
            v.budgetAvailable) = false →
          ps.submitted = false ∧ ps.paymentId = none ∧ ps.submittedAt = none ∧
            ps.expectedPaymentDate = none)
      ∧ (v.invoiceNumberValid = false →
          ("Invoice number " ++ c7Input.invoiceNumber ++ " has invalid format.")
            ∈ (simulateInvoiceProcessing c7Input).errors)
      ∧ (v.amountCorrect = false →
          ("Amount " ++ moneyText c7Input.totalAmount ++ " is outside acceptable range.")
            ∈ (simulateInvoiceProcessing c7Input).errors)
      ∧ (v.dueDateValid = false →
          ("Due date " ++ c7Input.dueDate ++ " is not a valid date.")
            ∈ (simulateInvoiceProcessing c7Input).errors)
      ∧ (v.vendorApproved = false →
          ("Vendor " ++ c7Input.vendorName ++ " is not on the approved vendor list.")
            ∈ (simulateInvoiceProcessing c7Input).errors)
      ∧ (v.budgetAvailable = false →
          ("Amount " ++ moneyText c7Input.totalAmount ++ " exceeds department budget threshold.")
            ∈ (simulateInvoiceProcessing c7Input).errors)
      ∧ (simulateInvoiceProcessing c7Input).errors.length =
          (cond v.invoiceNumberValid 0 1) + (cond v.amountCorrect 0 1) +
            (cond v.dueDateValid 0 1) + (cond v.vendorApproved 0 1) +
            (cond v.budgetAvailable 0 1) :=
  C7_thm c7Input (Or.inr rfl)

/-! ### Claim C8 — the skip guard of the stage-C simulator -/

/-- C8 counterexample: the claim says every non-matching next-action —
including the empty string — is skipped; but the skip guard requires a
nonempty next-action, so the empty next-action proceeds to full
validation (status `completed`, validations present) and here even
submits a payment. -/
theorem C8_counterexample :
    c8Input.nextAction ≠ "invoice_processing"
    ∧ (simulateInvoiceProcessing c8Input).stageStatus = "completed"
    ∧ (simulateInvoiceProcessing c8Input).stageStatus ≠ "skipped"
    ∧ (simulateInvoiceProcessing c8Input).validations ≠ none
    ∧ (simulateInvoiceProcessing c8Input).paymentSubmission
        = some { submitted := true, paymentId := some "PAY-20260122-54321",
                 submittedAt := some "2026-01-22T10:30:00Z",
                 expectedPaymentDate := some "2026-01-25",
                 paymentMethod := some "ACH Transfer", payStatus := "submitted" } := by
  refine ⟨by decide, rfl, by decide, by decide, by decide⟩

/-- C8 amended: whenever the upstream next-action is nonempty and
differs from `invoice_processing`, the stage result is marked `skipped`
with the explanatory message as its only error, validations and
payment submission are null and no payment is attempted; an empty
next-action instead proceeds to the full validation path. -/
theorem C8_amended_thm (inp : InvoiceSimInput) (h1 : inp.nextAction ≠ "")
    (h2 : inp.nextAction ≠ "invoice_processing") :
    simulateInvoiceProcessing inp
      = { success := true, ticketStatus := "invoice_processed", stageStatus := "skipped",
          validations := none, paymentSubmission := none,
          errors := ["Ticket nextAction is " ++ inp.nextAction ++
            ", not invoice_processing. Skipped."] } := by
  rw [simulateInvoiceProcessing, if_pos ⟨h1, h2⟩]

/-- C8 witness: the amended skip behaviour evaluated through the
theorem at the `manual_review` next-action. -/
theorem C8_witness :
    simulateInvoiceProcessing { c8Input with nextAction := "manual_review" }
      = { success := true, ticketStatus := "invoice_processed", stageStatus := "skipped",
          validations := none, paymentSubmission := none,
          errors := ["Ticket nextAction is manual_review, not invoice_processing. Skipped."] } :=
  C8_amended_thm { c8Input with nextAction := "manual_review" } (by decide) (by decide)

/-! ### Claim C10 — a skipped stage 3 is a terminal success -/

/-- C10: when the stage-C simulator skips because the upstream
next-action is non-matching, it still persists overall ticket status
`invoice_processed` and returns success — indistinguishable at the
status level from a completed run. -/
theorem C10_thm (inp : InvoiceSimInput) (h1 : inp.nextAction ≠ "")
    (h2 : inp.nextAction ≠ "invoice_processing") :
    (simulateInvoiceProcessing inp).stageStatus = "skipped"
    ∧ (simulateInvoiceProcessing inp).ticketStatus = "invoice_processed"
    ∧ (simulateInvoiceProcessing inp).success = true := by
  rw [simulateInvoiceProcessing, if_pos ⟨h1, h2⟩]
  exact ⟨rfl, rfl, rfl⟩

/-- C10 witness: the skip outcome evaluated through the theorem at the
`vendor_approval` next-action. -/
theorem C10_witness :
    (simulateInvoiceProcessing { c8Input with nextAction := "vendor_approval" }).stageStatus
        = "skipped"
    ∧ (simulateInvoiceProcessing
        { c8Input with nextAction := "vendor_approval" }).ticketStatus = "invoice_processed"
    ∧ (simulateInvoiceProcessing { c8Input with nextAction := "vendor_approval" }).success
        = true :=
  C10_thm { c8Input with nextAction := "vendor_approval" } (by decide) (by decide)

/-! ### Claim C1 — line-item amount reconciliation across tiers -/

/-- C1 counterexample: the claim says the reconciliation holds for every
extraction result regardless of tier; but the regex fallback tier never
applies `_fix_line_item_amounts`, so this concrete regex-tier run keeps
the zero amount instead of `round(2 * 5, 2) = 10`. -/
theorem C1_counterexample :
    ¬ ∀ it ∈ (extractWithContentUnderstanding "regex" false (some c1CexText)
        (emptyCuResult "")).lineItems,
      (it.amount = 0 → 0 < it.quantity → 0 < it.unitPrice →
        it.amount = round2 (it.quantity * it.unitPrice)) := by
  intro hall
  have hitems : (extractWithContentUnderstanding "regex" false (some c1CexText)
      (emptyCuResult "")).lineItems = [c1CexItem] := by decide
  have hmem : c1CexItem
      ∈ (extractWithContentUnderstanding "regex" false (some c1CexText)
        (emptyCuResult "")).lineItems := by
    rw [hitems]
    exact List.mem_singleton.mpr rfl
  have hzero := hall _ hmem rfl (by norm_num [c1CexItem]) (by norm_num [c1CexItem])
  rw [show round2 (c1CexItem.quantity * c1CexItem.unitPrice) = 10 from by
    norm_num [round2, c1CexItem]] at hzero
  norm_num [c1CexItem] at hzero

/-- C1 amended: the reconciliation is applied to the cloud-tier results
— any extraction method other than `regex` with the cloud service
configured — where every line item whose reported amount is 0 while
quantity and unit price are positive gets amount
`round(quantity * unitPrice, 2)`; the regex fallback tier does not
apply it. -/
theorem C1_amended_thm (extractionMethod : String) (pdfText : Option String)
    (cuSdk : CuResult) (hm : extractionMethod ≠ "regex") (i : Nat) (src : LineItem)
    (hsrc : cuSdk.lineItems[i]? = some src) (h0 : src.amount = 0)
    (hq : 0 < src.quantity) (hu : 0 < src.unitPrice) :
    (extractWithContentUnderstanding extractionMethod true pdfText cuSdk).lineItems[i]?
      = some { src with amount := round2 (src.quantity * src.unitPrice) } := by
  have hdisp : extractWithContentUnderstanding extractionMethod true pdfText cuSdk
      = fixLineItemAmounts cuSdk := by
    rw [extractWithContentUnderstanding.eq_def, if_neg hm]
    by_cases h2 : extractionMethod = "cu" <;> simp [h2]
  rw [hdisp]
  simp only [fixLineItemAmounts, List.getElem?_map, hsrc]
  simp [fixLineItem, h0, hq.ne', hu.ne']

/-- C1 witness: the amended reconciliation evaluated through the theorem
at a concrete cloud-tier result. -/
theorem C1_witness :
    (extractWithContentUnderstanding "cu" true none
        { lineItems := [c1wItem], error := none }).lineItems[0]?
      = some { c1wItem with amount := round2 (c1wItem.quantity * c1wItem.unitPrice) } :=
  C1_amended_thm "cu" none { lineItems := [c1wItem], error := none } (by decide) 0 c1wItem
    rfl rfl (by norm_num [c1wItem]) (by norm_num [c1wItem])

/-! ### Claim C2 — columnar block reconstruction order -/

/-- C2 counterexample: the claim says the k-th declared label receives
the line at index M + 1 + k regardless of which label appears first in
the source; with labels declared [A, B, C] but appearing in the source
in order B, A, C (at lines 0, 1, 2, so M = 2), the claim predicts A
receives line 3 (`v3`); the code instead assigns values in document
order, so A receives line 4 (`v4`) and B receives line 3. -/
theorem C2_counterexample :
    (extractColumnarBlock ["B", "A", "C", "v3", "v4", "v5"] ["A", "B", "C"]).lookup "A"
        = some "v4"
    ∧ (extractColumnarBlock ["B", "A", "C", "v3", "v4", "v5"] ["A", "B", "C"]).lookup "A"
        ≠ some "v3"
    ∧ (extractColumnarBlock ["B", "A", "C", "v3", "v4", "v5"] ["A", "B", "C"]).lookup "B"
        = some "v3" := by
  refine ⟨by decide, by decide, by decide⟩

theorem scanLabelLines_stops (labels : List String) (ls : List String) :
    ∀ (i : Nat) (acc : List (String × Nat)),
      (∀ lab ∈ labels, (acc.lookup lab).isSome = true ∨
        ∀ l ∈ ls, (stripU l == labelU lab) = false) →
      scanLabelLines labels ls i acc = acc := by
  induction ls with
  | nil => intro i acc _; rfl
  | cons l rest ih =>
    intro i acc h
    have hfind : labels.find?
        (fun lab => (stripU l == labelU lab) && (acc.lookup lab).isNone) = none := by
      rw [List.find?_eq_none]
      intro lab hlab
      rcases h lab hlab with hs | hnm
      · obtain ⟨v, hv⟩ := Option.isSome_iff_exists.mp hs
        simp [hv]
      · simp [hnm l (List.mem_cons_self l rest)]
    simp only [scanLabelLines, hfind]
    exact ih (i + 1) acc (fun lab hlab =>
      (h lab hlab).imp id (fun hn l2 hl2 => hn l2 (List.mem_cons_of_mem _ hl2)))

set_option maxHeartbeats 2000000 in
/-- C2 amended: the columnar-block extractor locates each label by its
first case-insensitive exact match on the stripped line, takes the
maximum found-label line index M, and assigns the (stripped) value
lines starting at M + 1 in the order the found labels appear in the
document — not in declaration order; when the labels occur in the
source in their declared order (here [A, B, C] on lines [2, 3, 4], so
M = 4) the two orders coincide and A receives line 5, B line 6, C
line 7; a label that is not found anywhere (here D) maps to the empty
string. -/
theorem C2_amended_thm (x y la lb lc v0 v1 v2 : String) (rest : List String)
    (A B C D : String)
    (hAB : labelU A ≠ labelU B) (hAC : labelU A ≠ labelU C) (hAD : labelU A ≠ labelU D)
    (hBC : labelU B ≠ labelU C) (hBD : labelU B ≠ labelU D) (hCD : labelU C ≠ labelU D)
    (hxA : stripU x ≠ labelU A) (hxB : stripU x ≠ labelU B) (hxC : stripU x ≠ labelU C)
    (hxD : stripU x ≠ labelU D)
    (hyA : stripU y ≠ labelU A) (hyB : stripU y ≠ labelU B) (hyC : stripU y ≠ labelU C)
    (hyD : stripU y ≠ labelU D)
    (hla : stripU la = labelU A) (hlb : stripU lb = labelU B) (hlc : stripU lc = labelU C)
    (hv0D : stripU v0 ≠ labelU D) (hv1D : stripU v1 ≠ labelU D) (hv2D : stripU v2 ≠ labelU D)
    (hrestD : ∀ l ∈ rest, stripU l ≠ labelU D) :
    (extractColumnarBlock ([x, y, la, lb, lc, v0, v1, v2] ++ rest) [A, B, C, D]).lookup A
        = some (trimS v0)
    ∧ (extractColumnarBlock ([x, y, la, lb, lc, v0, v1, v2] ++ rest) [A, B, C, D]).lookup B
        = some (trimS v1)
    ∧ (extractColumnarBlock ([x, y, la, lb, lc, v0, v1, v2] ++ rest) [A, B, C, D]).lookup C
        = some (trimS v2)
    ∧ (extractColumnarBlock ([x, y, la, lb, lc, v0, v1, v2] ++ rest) [A, B, C, D]).lookup D
        = some "" := by
  have sAB : A ≠ B := fun h => hAB (by rw [h])
  have sAC : A ≠ C := fun h => hAC (by rw [h])
  have sAD : A ≠ D := fun h => hAD (by rw [h])
  have sBC : B ≠ C := fun h => hBC (by rw [h])
  have sBD : B ≠ D := fun h => hBD (by rw [h])
  have sCD : C ≠ D := fun h => hCD (by rw [h])
  have bxA : (stripU x == labelU A) = false := beq_eq_false_iff_ne.mpr hxA
  have bxB : (stripU x == labelU B) = false := beq_eq_false_iff_ne.mpr hxB
  have bxC : (stripU x == labelU C) = false := beq_eq_false_iff_ne.mpr hxC
  have bxD : (stripU x == labelU D) = false := beq_eq_false_iff_ne.mpr hxD
  have byA : (stripU y == labelU A) = false := beq_eq_false_iff_ne.mpr hyA
  have byB : (stripU y == labelU B) = false := beq_eq_false_iff_ne.mpr hyB
  have byC : (stripU y == labelU C) = false := beq_eq_false_iff_ne.mpr hyC
  have byD : (stripU y == labelU D) = false := beq_eq_false_iff_ne.mpr hyD
  have blaA : (stripU la == labelU A) = true := by rw [hla]; exact beq_self_eq_true _
  have blbA : (stripU lb == labelU A) = false := by
    rw [hlb]; exact beq_eq_false_iff_ne.mpr (Ne.symm hAB)
  have blbB : (stripU lb == labelU B) = true := by rw [hlb]; exact beq_self_eq_true _
  have blcA : (stripU lc == labelU A) = false := by
    rw [hlc]; exact beq_eq_false_iff_ne.mpr (Ne.symm hAC)
  have blcB : (stripU lc == labelU B) = false := by
    rw [hlc]; exact beq_eq_false_iff_ne.mpr (Ne.symm hBC)
  have blcC : (stripU lc == labelU C) = true := by rw [hlc]; exact beq_self_eq_true _
  have bv0D : (stripU v0 == labelU D) = false := beq_eq_false_iff_ne.mpr hv0D
  have bv1D : (stripU v1 == labelU D) = false := beq_eq_false_iff_ne.mpr hv1D
  have bv2D : (stripU v2 == labelU D) = false := beq_eq_false_iff_ne.mpr hv2D
  have kBA : (B == A) = false := beq_eq_false_iff_ne.mpr (Ne.symm sAB)
  have kCA : (C == A) = false := beq_eq_false_iff_ne.mpr (Ne.symm sAC)
  have kCB : (C == B) = false := beq_eq_false_iff_ne.mpr (Ne.symm sBC)
  have kDA : (D == A) = false := beq_eq_false_iff_ne.mpr (Ne.symm sAD)
  have kDB : (D == B) = false := beq_eq_false_iff_ne.mpr (Ne.symm sBD)
  have kDC : (D == C) = false := beq_eq_false_iff_ne.mpr (Ne.symm sCD)
  have hscan : scanLabelLines [A, B, C, D] (x :: y :: la :: lb :: lc :: v0 :: v1 :: v2 :: rest)
      0 [] = [(A, 2), (B, 3), (C, 4)] := by
    have hstops := scanLabelLines_stops [A, B, C, D] rest 8 [(A, 2), (B, 3), (C, 4)]
      (by
        intro lab hlab
        simp only [List.mem_cons, List.not_mem_nil, or_false] at hlab
        rcases hlab with rfl | rfl | rfl | rfl
        · left; simp [List.lookup]
        ·left; simp [List.lookup, kBA]
        · left; simp [List.lookup, kCA, kCB]
        · right
          intro l hl
          exact beq_eq_false_iff_ne.mpr (hrestD l hl))
    simp only [scanLabelLines, List.find?, List.lookup, bxA, bxB, bxC, bxD, byA, byB, byC,
      byD, blaA, blbA, blbB, blcA, blcB, blcC, bv0D, bv1D, bv2D, kBA, kCA, kCB, kDA, kDB,
      kDC, beq_self_eq_true, Option.isNone_none, Option.isNone_some, Bool.false_and,
      Bool.and_false, Bool.and_true, Bool.true_and, List.nil_append]
    exact hstops
  have hsort : sortByIdx [(A, 2), (B, 3), (C, 4)] = [(A, 2), (B, 3), (C, 4)] := rfl
  have hget5 : (x :: y :: la :: lb :: lc :: v0 :: v1 :: v2 :: rest)[5]? = some v0 := by simp
  have hget6 : (x :: y :: la :: lb :: lc :: v0 :: v1 :: v2 :: rest)[6]? = some v1 := by simp
  have hget7 : (x :: y :: la :: lb :: lc :: v0 :: v1 :: v2 :: rest)[7]? = some v2 := by simp
  have henum : List.enum [(A, 2), (B, 3), (C, 4)] = [(0, (A, 2)), (1, (B, 3)), (2, (C, 4))] :=
    rfl
  have hlast : (([(A, 2), (B, 3), (C, 4)] : List (String × Nat)).getLast?.map
      (fun p => p.2)).getD 0 = 4 := rfl
  have hfA : (([(A, trimS v0), (B, trimS v1), (C, trimS v2)] :
      List (String × String)).lookup A).isNone = false := by simp [List.lookup]
  have hfB : (([(A, trimS v0), (B, trimS v1), (C, trimS v2)] :
      List (String × String)).lookup B).isNone = false := by simp [List.lookup, kBA]
  have hfC : (([(A, trimS v0), (B, trimS v1), (C, trimS v2)] :
      List (String × String)).lookup C).isNone = false := by simp [List.lookup, kCA, kCB]
  have hfD : (([(A, trimS v0), (B, trimS v1), (C, trimS v2)] :
      List (String × String)).lookup D).isNone = true := by simp [List.lookup, kDA, kDB, kDC]
  have hblock : extractColumnarBlock ([x, y, la, lb, lc, v0, v1, v2] ++ rest) [A, B, C, D]
      = [(A, trimS v0), (B, trimS v1), (C, trimS v2), (D, "")] := by
    simp only [extractColumnarBlock]
    simp only [List.cons_append, List.nil_append]
    simp only [hscan, hsort, hlast, henum, List.map, List.isEmpty]
    norm_num [hget5, hget6, hget7]
    simp [List.filter, hfA, hfB, hfC, hfD]
  rw [hblock]
  refine ⟨?_, ?_, ?_, ?_⟩
  · simp [List.lookup]
  · simp [List.lookup, kBA]
  · simp [List.lookup, kCA, kCB]
  · simp [List.lookup, kDA, kDB, kDC]

/-- C2 witness: the amended assignment evaluated through the theorem on
a concrete invoice header block with mixed-case label lines, a label
that is absent, and surrounding non-label text. -/
theorem C2_witness :
    (extractColumnarBlock
        (["ACME Corp", "INVOICE", " Invoice Number ", "invoice date", "DUE DATE",
          " INV-2026-78432 ", "January 22, 2026", "February 21, 2026"] ++ ["$100.00"])
        ["INVOICE NUMBER", "INVOICE DATE", "DUE DATE", "PO NUMBER"]).lookup "INVOICE NUMBER"
        = some (trimS " INV-2026-78432 ")
    ∧ (extractColumnarBlock
        (["ACME Corp", "INVOICE", " Invoice Number ", "invoice date", "DUE DATE",
          " INV-2026-78432 ", "January 22, 2026", "February 21, 2026"] ++ ["$100.00"])
        ["INVOICE NUMBER", "INVOICE DATE", "DUE DATE", "PO NUMBER"]).lookup "INVOICE DATE"
        = some (trimS "January 22, 2026")
    ∧ (extractColumnarBlock
        (["ACME Corp", "INVOICE", " Invoice Number ", "invoice date", "DUE DATE",
          " INV-2026-78432 ", "January 22, 2026", "February 21, 2026"] ++ ["$100.00"])
        ["INVOICE NUMBER", "INVOICE DATE", "DUE DATE", "PO NUMBER"]).lookup "DUE DATE"
        = some (trimS "February 21, 2026")
    ∧ (extractColumnarBlock
        (["ACME Corp", "INVOICE", " Invoice Number ", "invoice date", "DUE DATE",
          " INV-2026-78432 ", "January 22, 2026", "February 21, 2026"] ++ ["$100.00"])
        ["INVOICE NUMBER", "INVOICE DATE", "DUE DATE", "PO NUMBER"]).lookup "PO NUMBER"
        = some "" :=
  C2_amended_thm "ACME Corp" "INVOICE" " Invoice Number " "invoice date" "DUE DATE"
    " INV-2026-78432 " "January 22, 2026" "February 21, 2026" ["$100.00"]
    "INVOICE NUMBER" "INVOICE DATE" "DUE DATE" "PO NUMBER"
    (by decide) (by decide) (by decide) (by decide) (by decide) (by decide)
    (by decide) (by decide) (by decide) (by decide)
    (by decide) (by decide) (by decide) (by decide)
    (by decide) (by decide) (by decide)
    (by decide) (by decide) (by decide)
    (by decide)

end Zava
